import Mathlib

/-!
Verification of the task-orchestration core of the `cometweb_ant` web
service (file `backend/app/services/analyzer.py`).  The Python module
keeps a process-wide dictionary of analysis tasks, runs the requested
analysis modules one after another, aggregates a summary, and persists
completed tasks to disk.  We embed that pipeline shallowly: Python
dictionaries become association lists with in-place update semantics,
JSON values become the inductive `JVal`, raised exceptions become
`Except.error`, and the wall clock becomes an explicit string argument.
-/

/-- JSON-like values as stored in a task's results mapping.  Every value
the program puts there is built from numbers, strings, booleans, arrays
and objects, so these constructors cover all reachable payloads. -/
inductive JVal where
  | num (q : Rat)
  | str (s : String)
  | bool (b : Bool)
  | arr (items : List JVal)
  | obj (fields : List (String × JVal))

/-- Python `dict` assignment `d[k] = v` on an association list: the first
entry with key `k` is replaced in place, otherwise the pair is appended
at the end (Python dicts keep insertion order). -/
def dictInsert {α : Type} : List (String × α) → String → α → List (String × α)
  | [], k, v => [(k, v)]
  | p :: rest, k, v => if p.1 = k then (k, v) :: rest else p :: dictInsert rest k v

/-- Python membership/indexing `k in v and v[k]` for a JSON value: field
lookup succeeds only on objects (the program only ever indexes dicts). -/
def JVal.lookup : JVal → String → Option JVal
  | .obj fields, k => fields.lookup k
  | _, _ => none

/-- Numeric value of field `k`, when present.  In every payload the
program stores, the score and metric fields hold numbers, so the numeric
restriction loses nothing. -/
def JVal.numField (v : JVal) (k : String) : Option Rat :=
  match v.lookup k with
  | some (.num q) => some q
  | _ => none

/-- TaskRecord status, the four literal strings used by `analyzer.py`. -/
inductive Status where
  | pending
  | running
  | completed
  | error
deriving DecidableEq

/-- One entry of the summary's recommendations list. -/
structure Recommendation where
  category : String
  priority : String
  title : String
  description : String
deriving DecidableEq

/-- The summary dictionary built by `WebsiteAnalyzer._generate_summary`. -/
structure Summary where
  overall_score : Rat
  metrics : List (String × Rat)
  issues_critical : Nat
  issues_important : Nat
  issues_moderate : Nat
  issues_minor : Nat
  recommendations : List Recommendation
deriving DecidableEq

/-- A task record, mirroring the dictionary created by
`WebsiteAnalyzer.start_analysis`.  Fields added only later in the
lifecycle (`summary`, `error`, `completed_at`) are options, absent at
creation. -/
structure TaskRecord where
  status : Status
  url : String
  modules : List String
  depth : Nat
  device : String
  timestamp : String
  results : List (String × JVal)
  started_at : String
  summary : Option Summary := none
  error : Option String := none
  completed_at : Option String := none

/-- The mutable world: the process-wide `analysis_tasks` map and the
on-disk store written by `_save_results` (one record per task id). -/
structure SysState where
  tasks : List (String × TaskRecord)
  disk : List (String × TaskRecord)

/-- The five `_analyze_*` coroutine methods, as functions from their
arguments to either a returned payload (`Except.ok`) or a raised
exception carrying its message (`Except.error`).  `run_analysis` is
verified for every choice of implementations; the placeholder bodies of
the source are `defaultImpls` below. -/
structure ModuleImpls where
  performance : String → String → Except String JVal
  seo : String → Nat → Except String JVal
  accessibility : String → Except String JVal
  technology : String → Except String JVal
  carbon : String → Except String JVal

/-- The `if/elif` dispatch on `module_name` inside `run_analysis`:
`none` models the final `else` branch that logs a warning and skips the
unknown module. -/
def dispatchModule (impl : ModuleImpls) (task : TaskRecord) (name : String) :
    Option (Except String JVal) :=
  if name = "performance" then some (impl.performance task.url task.device)
  else if name = "seo" then some (impl.seo task.url task.depth)
  else if name = "accessibility" then some (impl.accessibility task.url)
  else if name = "technology" then some (impl.technology task.url)
  else if name = "carbon" then some (impl.carbon task.url)
  else none

/-- Membership in the recognized module set
{performance, seo, accessibility, technology, carbon}. -/
def recognizedModule (name : String) : Bool :=
  if name = "performance" then true
  else if name = "seo" then true
  else if name = "accessibility" then true
  else if name = "technology" then true
  else if name = "carbon" then true
  else false

/-- The error marker `{"error": str(e)}` stored for a failing module. -/
def errObj (msg : String) : JVal :=
  .obj [("error", .str msg)]

/-- The `for module_name in task["modules"]` loop of `run_analysis` with
its inner try/except: a recognized module's payload or error marker is
written into the results mapping and iteration continues; an
unrecognized name is skipped. -/
def runModulesLoop (impl : ModuleImpls) (task : TaskRecord) : List String → TaskRecord
  | [] => task
  | name :: rest =>
    match dispatchModule impl task name with
    | none => runModulesLoop impl task rest
    | some (.ok payload) =>
        runModulesLoop impl
          { task with results := dictInsert task.results name payload } rest
    | some (.error msg) =>
        runModulesLoop impl
          { task with results := dictInsert task.results name (errObj msg) } rest

/-- The single hard-coded recommendation appended when
`first_contentful_paint` exceeds 2000. -/
def fcpRecommendation : Recommendation :=
  { category := "performance"
    priority := "important"
    title := "Improve First Contentful Paint"
    description := "First Contentful Paint is too slow. Consider optimizing server response time and critical rendering path." }

/-- One of the three identical score-collecting blocks of
`_generate_summary`: if module `modName` is present in `results` and its
`field` holds a number, append it to the scores and record it in the
summary's metrics under `label`. -/
def scoreStep (results : List (String × JVal)) (modName field label : String)
    (acc : List Rat × List (String × Rat)) : List Rat × List (String × Rat) :=
  match (results.lookup modName).bind (fun v => v.numField field) with
  | some q => (acc.1 ++ [q], acc.2 ++ [(label, q)])
  | none => acc

/-- `WebsiteAnalyzer._generate_summary`: collects the performance, SEO
and accessibility scores that are present, averages them (0 when none),
and fires the one first-contentful-paint recommendation rule. -/
def generate_summary (results : List (String × JVal)) : Summary :=
  let acc :=
    scoreStep results "accessibility" "score" "accessibility"
      (scoreStep results "seo" "score" "seo"
        (scoreStep results "performance" "lighthouse_score" "performance" ([], [])))
  let scores := acc.1
  let overall : Rat := if scores.isEmpty then 0 else scores.sum / (scores.length : Rat)
  let recState :=
    match results.lookup "performance" with
    | some perf =>
      match perf.lookup "metrics" with
      | some metrics =>
        match metrics.numField "first_contentful_paint" with
        | some fcp => if fcp > 2000 then ([fcpRecommendation], 1) else ([], 0)
        | none => ([], 0)
      | none => ([], 0)
    | none => ([], 0)
  { overall_score := overall
    metrics := acc.2
    issues_critical := 0
    issues_important := recState.2
    issues_moderate := 0
    issues_minor := 0
    recommendations := recState.1 }

/-- `WebsiteAnalyzer.start_analysis`: insert a fresh pending record.
The generated UUID and the current time are passed in as `task_id` and
`now`. -/
def start_analysis (st : SysState) (task_id now url : String)
    (modules : List String) (depth : Nat) (device : String) : SysState :=
  { st with
    tasks := dictInsert st.tasks task_id
      { status := .pending
        url := url
        modules := modules
        depth := depth
        device := device
        timestamp := now
        results := []
        started_at := now } }

/-- `WebsiteAnalyzer._save_results` with its internal try/except: a
failing file write (`writeFails`) is logged and swallowed, leaving the
disk unchanged. -/
def save_results (writeFails : Bool) (disk : List (String × TaskRecord))
    (task_id : String) (task : TaskRecord) : List (String × TaskRecord) :=
  if writeFails then disk else dictInsert disk task_id task

/-- `WebsiteAnalyzer._load_results`: read the per-task file if it
exists, `none` otherwise. -/
def load_results (disk : List (String × TaskRecord)) (task_id : String) : Option TaskRecord :=
  disk.lookup task_id

/-- `WebsiteAnalyzer.run_analysis`.  Returns the final state together
with the sequence of status values assigned to the record during the
call (empty when the id is unknown and the method logs and returns).
`summarize` is the call to `_generate_summary`, kept abstract so that an
exception escaping summary generation (the outer try/except) is
expressible; the actual total generator is `defaultSummarize`. -/
def run_analysis (impl : ModuleImpls)
    (summarize : List (String × JVal) → Except String Summary)
    (writeFails : Bool) (now : String) (st : SysState) (task_id : String) :
    SysState × List Status :=
  match st.tasks.lookup task_id with
  | none => (st, [])
  | some task0 =>
    let task1 : TaskRecord := { task0 with status := .running }
    let task2 := runModulesLoop impl task1 task0.modules
    match summarize task2.results with
    | .ok s =>
      let task3 : TaskRecord :=
        { task2 with summary := some s, status := .completed, completed_at := some now }
      ({ tasks := dictInsert st.tasks task_id task3
         disk := save_results writeFails st.disk task_id task3 },
       [.running, .completed])
    | .error msg =>
      let task3 : TaskRecord := { task2 with status := .error, error := some msg }
      ({ tasks := dictInsert st.tasks task_id task3, disk := st.disk },
       [.running, .error])

/-- `WebsiteAnalyzer.get_analysis_results`: the in-memory record if
present, else the persisted record if it loads, else `none`. -/
def get_analysis_results (st : SysState) (task_id : String) : Option TaskRecord :=
  match st.tasks.lookup task_id with
  | none =>
    match load_results st.disk task_id with
    | some loaded => some loaded
    | none => none
  | some t => some t

/-- The call to `self._generate_summary(task["results"])` in the source:
total, never raises. -/
def defaultSummarize (results : List (String × JVal)) : Except String Summary :=
  .ok (generate_summary results)

/-- Literal payload returned by `_analyze_performance`. -/
def performancePayload : JVal :=
  .obj
    [("lighthouse_score", .num 85),
     ("metrics",
       .obj
         [("first_contentful_paint", .num 1200),
          ("speed_index", .num 1800),
          ("largest_contentful_paint", .num 2500),
          ("time_to_interactive", .num 3200),
          ("total_blocking_time", .num 250),
          ("cumulative_layout_shift", .num (12 / 100))]),
     ("opportunities",
       .arr
         [.obj
            [("title", .str "Properly size images"),
             ("description", .str "Serve images that are appropriately-sized to save cellular data and improve load time."),
             ("score", .num 80)],
          .obj
            [("title", .str "Eliminate render-blocking resources"),
             ("description", .str "Resources are blocking the first paint of your page. Consider delivering critical JS/CSS inline and deferring all non-critical JS/styles."),
             ("score", .num 65)]])]

/-- Literal payload returned by `_analyze_seo`. -/
def seoPayload : JVal :=
  .obj
    [("score", .num 78),
     ("on_page",
       .obj
         [("title",
            .obj
              [("found", .bool true),
               ("value", .str "Example Website - Home Page"),
               ("length", .num 26),
               ("score", .num 85)]),
          ("meta_description",
            .obj
              [("found", .bool true),
               ("value", .str "This is an example website description that would appear in search results."),
               ("length", .num 74),
               ("score", .num 90)]),
          ("headings",
            .obj
              [("h1_count", .num 1),
               ("h2_count", .num 5),
               ("h3_count", .num 8),
               ("score", .num 95)])]),
     ("issues",
       .arr
         [.obj
            [("type", .str "warning"),
             ("message", .str "Meta description could be more descriptive")],
          .obj
            [("type", .str "info"),
             ("message", .str "Consider adding more internal links to important pages")]])]

/-- Literal payload returned by `_analyze_accessibility`. -/
def accessibilityPayload : JVal :=
  .obj
    [("score", .num 72),
     ("wcag_compliance",
       .obj [("a", .num 95), ("aa", .num 80), ("aaa", .num 45)]),
     ("issues",
       .arr
         [.obj
            [("type", .str "error"),
             ("wcag", .str "1.1.1"),
             ("message", .str "Images must have alternate text"),
             ("elements", .num 3)],
          .obj
            [("type", .str "warning"),
             ("wcag", .str "1.4.3"),
             ("message", .str "Text contrast ratio should be at least 4.5:1"),
             ("elements", .num 5)]])]

/-- Literal payload returned by `_analyze_technology_stack`. -/
def technologyPayload : JVal :=
  .obj
    [("frameworks",
       .arr
         [.obj
            [("name", .str "React"),
             ("version", .str "17.0.2"),
             ("confidence", .num 95)],
          .obj
            [("name", .str "Bootstrap"),
             ("version", .str "5.1.0"),
             ("confidence", .num 90)]]),
     ("server",
       .obj
         [("name", .str "Nginx"),
          ("version", .str "1.20.0"),
          ("confidence", .num 100)]),
     ("analytics",
       .arr
         [.obj
            [("name", .str "Google Analytics"),
             ("version", .str "GA4"),
             ("confidence", .num 100)]]),
     ("cdn",
       .obj [("name", .str "Cloudflare"), ("confidence", .num 95)])]

/-- Literal payload returned by `_analyze_carbon_emissions`. -/
def carbonPayload : JVal :=
  .obj
    [("co2_per_visit", .num (78 / 100)),
     ("energy_consumption", .num (25 / 100000)),
     ("cleaner_than", .num 65),
     ("transfer_size", .num (24 / 10)),
     ("recommendations",
       .arr
         [.str "Optimize images to reduce file size",
          .str "Use a green hosting provider",
          .str "Implement lazy loading for below-the-fold content"])]

/-- The placeholder `_analyze_*` methods of the source: each sleeps and
then returns its fixed literal payload, ignoring the URL and the other
arguments, and never raises. -/
def defaultImpls : ModuleImpls where
  performance := fun _ _ => .ok performancePayload
  seo := fun _ _ => .ok seoPayload
  accessibility := fun _ => .ok accessibilityPayload
  technology := fun _ => .ok technologyPayload
  carbon := fun _ => .ok carbonPayload

/-- Spec-side reading of one score: module `modName` present in the
results mapping with numeric field `field`.  Written from the spec
sentence "Collects a numeric score from each of the performance, SEO,
and accessibility modules' results if present". -/
def specModuleScore (results : List (String × JVal)) (modName field : String) : Option Rat :=
  (results.lookup modName).bind (fun v => v.numField field)

/-- Spec-side list of whichever of the three scores are present, in the
order performance, SEO, accessibility. -/
def specPresentScores (results : List (String × JVal)) : List Rat :=
  [specModuleScore results "performance" "lighthouse_score",
   specModuleScore results "seo" "score",
   specModuleScore results "accessibility" "score"].filterMap id

/-- The record after the module loop of `run_analysis` has run on task
`t`: status already set to running, results filled in module order. -/
def moduleDispatchResult (impl : ModuleImpls) (t : TaskRecord) : TaskRecord :=
  runModulesLoop impl { t with status := Status.running } t.modules

/-- A freshly created pending record for the concrete scenario of the
spec (submit `https://example.com` with performance and seo). -/
def sampleTask : TaskRecord :=
  { status := .pending
    url := "https://example.com"
    modules := ["performance", "seo"]
    depth := 1
    device := "desktop"
    timestamp := "t0"
    results := []
    started_at := "t0" }

/-- A system state holding one pending sample task and an empty disk. -/
def sampleState : SysState :=
  { tasks := [("tid", sampleTask)], disk := [] }

/-- The initial system state: no tasks in memory, nothing on disk. -/
def emptyState : SysState :=
  { tasks := [], disk := [] }

/-- The stub implementations except that the seo module raises `boom`,
for exercising the per-module error handler. -/
def seoFailImpls : ModuleImpls :=
  { defaultImpls with seo := fun _ _ => .error "boom" }

/-- A summary generator that raises, for exercising the outer
try/except of `run_analysis`. -/
def failSummarize : List (String × JVal) → Except String Summary :=
  fun _ => .error "summary exploded"

/-- The results mapping produced for the concrete scenario (performance
and seo modules, in request order). -/
def sampleResults : List (String × JVal) :=
  [("performance", performancePayload), ("seo", seoPayload)]

/-- A pending record requesting one recognized and one unrecognized
module, for the key-set witness. -/
def mixedTask : TaskRecord :=
  { sampleTask with modules := ["performance", "bogus"] }

/-- A system state holding the mixed task. -/
def mixedState : SysState :=
  { tasks := [("tid", mixedTask)], disk := [] }

/-- Position of a status along the forward lifecycle
pending → running → (completed | error); the two terminal states share
the last position. -/
def statusRank : Status → Nat
  | .pending => 0
  | .running => 1
  | .completed => 2
  | .error => 2

theorem dictInsert_lookup_self {α : Type} (l : List (String × α)) (k : String) (v : α) :
    (dictInsert l k v).lookup k = some v := by
  induction l with
  | nil => simp [dictInsert, List.lookup]
  | cons p rest ih =>
    obtain ⟨a, b⟩ := p
    by_cases h : a = k
    · subst h
      simp [dictInsert, List.lookup]
    · have hba : (k == a) = false := beq_eq_false_iff_ne.mpr fun hh => h hh.symm
      simp [dictInsert, h, List.lookup, hba, ih]

theorem dictInsert_lookup_ne {α : Type} (l : List (String × α)) (k k' : String) (v : α)
    (hne : k' ≠ k) : (dictInsert l k v).lookup k' = l.lookup k' := by
  have hke : (k' == k) = false := beq_eq_false_iff_ne.mpr hne
  induction l with
  | nil => simp [dictInsert, List.lookup, hke]
  | cons p rest ih =>
    obtain ⟨a, b⟩ := p
    by_cases h : a = k
    · subst h
      simp [dictInsert, List.lookup, hke]
    · rcases hb : (k' == a) with _ | _
      · simp [dictInsert, h, List.lookup, hb, ih]
      · simp [dictInsert, h, List.lookup, hb]

theorem dictInsert_lookup_isSome {α : Type} (l : List (String × α)) (k k' : String) (v : α) :
    ((dictInsert l k v).lookup k').isSome ↔ (k' = k ∨ (l.lookup k').isSome) := by
  by_cases h : k' = k
  · subst h
    simp [dictInsert_lookup_self]
  · simp [dictInsert_lookup_ne l k k' v h, h]

theorem dispatchModule_eq_none_iff (impl : ModuleImpls) (t : TaskRecord) (name : String) :
    dispatchModule impl t name = none ↔ recognizedModule name = false := by
  unfold dispatchModule recognizedModule
  split_ifs <;> simp

theorem recognizedModule_of_dispatch_some (impl : ModuleImpls) (t : TaskRecord)
    (name : String) (e : Except String JVal) (h : dispatchModule impl t name = some e) :
    recognizedModule name = true := by
  rcases hb : recognizedModule name with _ | _
  · rw [(dispatchModule_eq_none_iff impl t name).mpr hb] at h
    cases h
  · rfl

theorem dispatchModule_results_irrel (impl : ModuleImpls) (t : TaskRecord)
    (r : List (String × JVal)) (name : String) :
    dispatchModule impl { t with results := r } name = dispatchModule impl t name := rfl

theorem runModulesLoop_shape (impl : ModuleImpls) (names : List String) :
    ∀ t : TaskRecord, ∃ r, runModulesLoop impl t names = { t with results := r } := by
  induction names with
  | nil => intro t; exact ⟨t.results, rfl⟩
  | cons name rest ih =>
    intro t
    cases hd : dispatchModule impl t name with
    | none =>
      obtain ⟨r, hr⟩ := ih t
      exact ⟨r, by simp only [runModulesLoop, hd]; rw [hr]⟩
    | some e =>
      cases e with
      | ok payload =>
        obtain ⟨r, hr⟩ := ih { t with results := dictInsert t.results name payload }
        exact ⟨r, by simp only [runModulesLoop, hd]; rw [hr]⟩
      | error msg =>
        obtain ⟨r, hr⟩ := ih { t with results := dictInsert t.results name (errObj msg) }
        exact ⟨r, by simp only [runModulesLoop, hd]; rw [hr]⟩

theorem runModulesLoop_status (impl : ModuleImpls) (names : List String) (t : TaskRecord) :
    (runModulesLoop impl t names).status = t.status := by
  obtain ⟨r, hr⟩ := runModulesLoop_shape impl names t
  rw [hr]

theorem runModulesLoop_summary (impl : ModuleImpls) (names : List String) (t : TaskRecord) :
    (runModulesLoop impl t names).summary = t.summary := by
  obtain ⟨r, hr⟩ := runModulesLoop_shape impl names t
  rw [hr]

theorem runModulesLoop_error (impl : ModuleImpls) (names : List String) (t : TaskRecord) :
    (runModulesLoop impl t names).error = t.error := by
  obtain ⟨r, hr⟩ := runModulesLoop_shape impl names t
  rw [hr]

theorem runModulesLoop_completed_at (impl : ModuleImpls) (names : List String) (t : TaskRecord) :
    (runModulesLoop impl t names).completed_at = t.completed_at := by
  obtain ⟨r, hr⟩ := runModulesLoop_shape impl names t
  rw [hr]

theorem runModulesLoop_lookup_isSome (impl : ModuleImpls) (names : List String) :
    ∀ (t : TaskRecord) (n : String),
      ((runModulesLoop impl t names).results.lookup n).isSome ↔
        ((t.results.lookup n).isSome ∨ (n ∈ names ∧ recognizedModule n = true)) := by
  induction names with
  | nil => intro t n; simp [runModulesLoop]
  | cons name rest ih =>
    intro t n
    by_cases hn : n = name
    · subst hn
      cases hd : dispatchModule impl t n with
      | none =>
        have hrec : recognizedModule n = false := (dispatchModule_eq_none_iff impl t n).mp hd
        rw [runModulesLoop, hd, ih t n]
        simp [hrec]
      | some e =>
        have hrec := recognizedModule_of_dispatch_some impl t n e hd
        cases e with
        | ok payload =>
          rw [runModulesLoop, hd, ih _ n, dictInsert_lookup_isSome]
          simp [hrec]
        | error msg =>
          rw [runModulesLoop, hd, ih _ n, dictInsert_lookup_isSome]
          simp [hrec]
    · cases hd : dispatchModule impl t name with
      | none =>
        rw [runModulesLoop, hd, ih t n]
        simp [hn]
      | some e =>
        cases e with
        | ok payload =>
          rw [runModulesLoop, hd, ih _ n, dictInsert_lookup_isSome]
          simp [hn]
        | error msg =>
          rw [runModulesLoop, hd, ih _ n, dictInsert_lookup_isSome]
          simp [hn]

theorem runModulesLoop_lookup_notMem (impl : ModuleImpls) (names : List String) :
    ∀ (t : TaskRecord) (m : String), m ∉ names →
      (runModulesLoop impl t names).results.lookup m = t.results.lookup m := by
  induction names with
  | nil => intro t m _; rfl
  | cons name rest ih =>
    intro t m hm
    have hm1 : m ≠ name := fun hh => hm (hh ▸ List.mem_cons_self name rest)
    have hm2 : m ∉ rest := fun hh => hm (List.mem_cons_of_mem name hh)
    cases hd : dispatchModule impl t name with
    | none => rw [runModulesLoop, hd, ih t m hm2]
    | some e =>
      cases e with
      | ok payload =>
        rw [runModulesLoop, hd, ih _ m hm2]
        exact dictInsert_lookup_ne _ _ _ _ hm1
      | error msg =>
        rw [runModulesLoop, hd, ih _ m hm2]
        exact dictInsert_lookup_ne _ _ _ _ hm1

theorem runModulesLoop_lookup_err (impl : ModuleImpls) (m msg : String)
    (hm : ∀ t : TaskRecord, dispatchModule impl t m = some (.error msg)) :
    ∀ (names : List String) (t : TaskRecord), m ∈ names →
      (runModulesLoop impl t names).results.lookup m = some (errObj msg) := by
  intro names
  induction names with
  | nil => intro t h; cases h
  | cons name rest ih =>
    intro t hmem
    by_cases hn : name = m
    · subst hn
      rw [runModulesLoop, hm t]
      by_cases hr : name ∈ rest
      · exact ih _ hr
      · rw [runModulesLoop_lookup_notMem impl rest _ name hr]
        exact dictInsert_lookup_self _ _ _
    · have hmem' : m ∈ rest := by
        rcases List.mem_cons.mp hmem with h | h
        · exact absurd h.symm hn
        · exact h
      cases hd : dispatchModule impl t name with
      | none => rw [runModulesLoop, hd]; exact ih t hmem'
      | some e =>
        cases e with
        | ok payload => rw [runModulesLoop, hd]; exact ih _ hmem'
        | error msg2 => rw [runModulesLoop, hd]; exact ih _ hmem'

theorem dispatchModule_congr (impl : ModuleImpls) (t t' : TaskRecord)
    (hu : t'.url = t.url) (hv : t'.device = t.device) (hd : t'.depth = t.depth)
    (name : String) :
    dispatchModule impl t' name = dispatchModule impl t name := by
  unfold dispatchModule
  rw [hu, hv, hd]

theorem runModulesLoop_isolation (impl impl' : ModuleImpls) (m : String)
    (hoth : ∀ (t : TaskRecord) (n : String), n ≠ m →
      dispatchModule impl t n = dispatchModule impl' t n) :
    ∀ (names : List String) (t t' : TaskRecord),
      t'.url = t.url → t'.device = t.device → t'.depth = t.depth →
      (∀ n, n ≠ m → t'.results.lookup n = t.results.lookup n) →
      ∀ n, n ≠ m →
        (runModulesLoop impl' t' names).results.lookup n =
          (runModulesLoop impl t names).results.lookup n := by
  intro names
  induction names with
  | nil =>
    intro t t' _ _ _ hagree n hn
    exact hagree n hn
  | cons name rest ih =>
    intro t t' hu hv hdp hagree n hn
    by_cases hname : name = m
    · subst hname
      have hagreeL : ∀ (w : JVal) n2, n2 ≠ name →
          (dictInsert t'.results name w).lookup n2 = t.results.lookup n2 := by
        intro w n2 hn2
        rw [dictInsert_lookup_ne _ _ _ _ hn2]
        exact hagree n2 hn2
      have hagreeR : ∀ (w : JVal) n2, n2 ≠ name →
          t'.results.lookup n2 = (dictInsert t.results name w).lookup n2 := by
        intro w n2 hn2
        rw [dictInsert_lookup_ne _ _ _ _ hn2]
        exact hagree n2 hn2
      have hagreeB : ∀ (w w' : JVal) n2, n2 ≠ name →
          (dictInsert t'.results name w).lookup n2 =
            (dictInsert t.results name w').lookup n2 := by
        intro w w' n2 hn2
        rw [dictInsert_lookup_ne _ _ _ _ hn2, dictInsert_lookup_ne _ _ _ _ hn2]
        exact hagree n2 hn2
      rcases hdL : dispatchModule impl' t' name with _ | eL <;>
        rcases hdR : dispatchModule impl t name with _ | eR
      · simp only [runModulesLoop, hdL, hdR]
        exact ih t t' hu hv hdp hagree n hn
      · cases eR with
        | ok w =>
          simp only [runModulesLoop, hdL, hdR]
          exact ih { t with results := dictInsert t.results name w } t'
            hu hv hdp (fun n2 hn2 => hagreeR w n2 hn2) n hn
        | error msg =>
          simp only [runModulesLoop, hdL, hdR]
          exact ih { t with results := dictInsert t.results name (errObj msg) } t'
            hu hv hdp (fun n2 hn2 => hagreeR (errObj msg) n2 hn2) n hn
      · cases eL with
        | ok w =>
          simp only [runModulesLoop, hdL, hdR]
          exact ih t { t' with results := dictInsert t'.results name w }
            hu hv hdp (fun n2 hn2 => hagreeL w n2 hn2) n hn
        | error msg =>
          simp only [runModulesLoop, hdL, hdR]
          exact ih t { t' with results := dictInsert t'.results name (errObj msg) }
            hu hv hdp (fun n2 hn2 => hagreeL (errObj msg) n2 hn2) n hn
      · cases eL with
        | ok w =>
          cases eR with
          | ok w' =>
            simp only [runModulesLoop, hdL, hdR]
            exact ih { t with results := dictInsert t.results name w' }
              { t' with results := dictInsert t'.results name w }
              hu hv hdp (fun n2 hn2 => hagreeB w w' n2 hn2) n hn
          | error msg' =>
            simp only [runModulesLoop, hdL, hdR]
            exact ih { t with results := dictInsert t.results name (errObj msg') }
              { t' with results := dictInsert t'.results name w }
              hu hv hdp (fun n2 hn2 => hagreeB w (errObj msg') n2 hn2) n hn
        | error msg =>
          cases eR with
          | ok w' =>
            simp only [runModulesLoop, hdL, hdR]
            exact ih { t with results := dictInsert t.results name w' }
              { t' with results := dictInsert t'.results name (errObj msg) }
              hu hv hdp (fun n2 hn2 => hagreeB (errObj msg) w' n2 hn2) n hn
          | error msg' =>
            simp only [runModulesLoop, hdL, hdR]
            exact ih { t with results := dictInsert t.results name (errObj msg') }
              { t' with results := dictInsert t'.results name (errObj msg) }
              hu hv hdp (fun n2 hn2 => hagreeB (errObj msg) (errObj msg') n2 hn2) n hn
    · have hsame : dispatchModule impl' t' name = dispatchModule impl t name := by
        rw [dispatchModule_congr impl' t t' hu hv hdp name]
        exact (hoth t name hname).symm
      have hagreeI : ∀ (w : JVal) n2, n2 ≠ m →
          (dictInsert t'.results name w).lookup n2 =
            (dictInsert t.results name w).lookup n2 := by
        intro w n2 hn2
        by_cases h2 : n2 = name
        · subst h2
          rw [dictInsert_lookup_self, dictInsert_lookup_self]
        · rw [dictInsert_lookup_ne _ _ _ _ h2, dictInsert_lookup_ne _ _ _ _ h2]
          exact hagree n2 hn2
      cases hdR : dispatchModule impl t name with
      | none =>
        have hdL : dispatchModule impl' t' name = none := hsame.trans hdR
        simp only [runModulesLoop, hdL, hdR]
        exact ih t t' hu hv hdp hagree n hn
      | some e =>
        have hdL : dispatchModule impl' t' name = some e := hsame.trans hdR
        cases e with
        | ok w =>
          simp only [runModulesLoop, hdL, hdR]
          exact ih { t with results := dictInsert t.results name w }
            { t' with results := dictInsert t'.results name w }
            hu hv hdp (fun n2 hn2 => hagreeI w n2 hn2) n hn
        | error msg =>
          simp only [runModulesLoop, hdL, hdR]
          exact ih { t with results := dictInsert t.results name (errObj msg) }
            { t' with results := dictInsert t'.results name (errObj msg) }
            hu hv hdp (fun n2 hn2 => hagreeI (errObj msg) n2 hn2) n hn

theorem run_analysis_ok (impl : ModuleImpls)
    (summarize : List (String × JVal) → Except String Summary)
    (writeFails : Bool) (now : String) (st : SysState) (task_id : String)
    (t : TaskRecord) (s : Summary)
    (h : st.tasks.lookup task_id = some t)
    (hs : summarize (moduleDispatchResult impl t).results = .ok s) :
    run_analysis impl summarize writeFails now st task_id =
      ({ tasks := dictInsert st.tasks task_id
           { moduleDispatchResult impl t with
             summary := some s, status := .completed, completed_at := some now }
         disk := save_results writeFails st.disk task_id
           { moduleDispatchResult impl t with
             summary := some s, status := .completed, completed_at := some now } },
       [.running, .completed]) := by
  have hs' := hs
  unfold moduleDispatchResult at hs'
  simp only [run_analysis, h, hs', moduleDispatchResult]

theorem run_analysis_err (impl : ModuleImpls)
    (summarize : List (String × JVal) → Except String Summary)
    (writeFails : Bool) (now : String) (st : SysState) (task_id : String)
    (t : TaskRecord) (msg : String)
    (h : st.tasks.lookup task_id = some t)
    (hs : summarize (moduleDispatchResult impl t).results = .error msg) :
    run_analysis impl summarize writeFails now st task_id =
      ({ tasks := dictInsert st.tasks task_id
           { moduleDispatchResult impl t with status := .error, error := some msg }
         disk := st.disk },
       [.running, .error]) := by
  have hs' := hs
  unfold moduleDispatchResult at hs'
  simp only [run_analysis, h, hs', moduleDispatchResult]

theorem overall_score_formula (results : List (String × JVal)) :
    (generate_summary results).overall_score =
      (if specPresentScores results = [] then 0
       else (specPresentScores results).sum / ((specPresentScores results).length : Rat)) := by
  unfold generate_summary specPresentScores specModuleScore scoreStep
  rcases h1 : (results.lookup "performance").bind (fun v => v.numField "lighthouse_score") with _ | q1 <;>
    rcases h2 : (results.lookup "seo").bind (fun v => v.numField "score") with _ | q2 <;>
      rcases h3 : (results.lookup "accessibility").bind (fun v => v.numField "score") with _ | q3 <;>
        simp [h1, h2, h3]

/-- C1: For every results mapping, the summary's `overall_score` computed
by `_generate_summary` equals the arithmetic mean of exactly those scores
that are present among the performance result's `lighthouse_score` field
and the seo and accessibility results' `score` fields (error markers
without those fields contribute nothing); when none of the three is
present the overall score is 0. -/
theorem generate_summary_overall_score_spec (results : List (String × JVal)) :
    (generate_summary results).overall_score =
      (if specPresentScores results = [] then 0
       else (specPresentScores results).sum / ((specPresentScores results).length : Rat)) :=
  overall_score_formula results

/-- C6: submitting `https://example.com` with modules
`["performance", "seo"]` and running the analysis yields a completed
task whose performance `lighthouse_score` is 85, whose seo `score` is
78, whose summary `overall_score` is 81.5, and whose recommendations
list is empty (the literal `first_contentful_paint` 1200 does not exceed
2000, so the single recommendation rule does not fire). -/
theorem concrete_scenario_spec :
    ∃ t' : TaskRecord,
      ((run_analysis defaultImpls defaultSummarize false "t1"
          (start_analysis emptyState "tid" "t0" "https://example.com"
            ["performance", "seo"] 1 "desktop")
          "tid").1.tasks.lookup "tid") = some t' ∧
      t'.status = .completed ∧
      (t'.results.lookup "performance").bind (fun v => v.numField "lighthouse_score") = some 85 ∧
      (t'.results.lookup "seo").bind (fun v => v.numField "score") = some 78 ∧
      ∃ s : Summary, t'.summary = some s ∧
        s.overall_score = (81.5 : Rat) ∧
        s.recommendations = [] := by
  refine ⟨_, rfl, rfl, by decide, by decide, _, rfl, ?_, by decide⟩
  show (generate_summary sampleResults).overall_score = (81.5 : Rat)
  rw [overall_score_formula,
    show specPresentScores sampleResults = [85, 78] by decide]
  norm_num
  exact List.cons_ne_nil _ _

/-- C5: `get_analysis_results` returns the in-memory record when the
identifier is in the task store; otherwise it returns exactly what the
persistence shim loads for that identifier (the persisted record when it
exists, absent otherwise).  Being a total function it never raises for a
missing identifier. -/
theorem get_analysis_results_spec (st : SysState) (task_id : String) :
    (∀ t, st.tasks.lookup task_id = some t →
      get_analysis_results st task_id = some t) ∧
    (st.tasks.lookup task_id = none →
      get_analysis_results st task_id = load_results st.disk task_id) := by
  constructor
  · intro t h
    simp [get_analysis_results, h]
  · intro h
    simp only [get_analysis_results, h]
    cases hl : load_results st.disk task_id <;> simp [hl]

/-- Witness for C5: the sample task is returned from memory, and an
identifier known to neither memory nor disk yields absent. -/
theorem get_analysis_results_spec_witness :
    get_analysis_results sampleState "tid" = some sampleTask ∧
    get_analysis_results emptyState "tid" = none :=
  ⟨(get_analysis_results_spec sampleState "tid").1 sampleTask rfl,
   ((get_analysis_results_spec emptyState "tid").2 rfl).trans rfl⟩

/-- C7: running an identifier that is not in the task store logs and
returns with no effect: the final state is the input state, both the
task store and the disk, and no status is ever assigned. -/
theorem run_unknown_id_noop (impl : ModuleImpls)
    (summarize : List (String × JVal) → Except String Summary)
    (writeFails : Bool) (now : String) (st : SysState) (task_id : String)
    (h : st.tasks.lookup task_id = none) :
    run_analysis impl summarize writeFails now st task_id = (st, []) := by
  simp [run_analysis, h]

/-- Witness for C7: running a missing identifier on the empty state
returns it unchanged. -/
theorem run_unknown_id_noop_witness :
    run_analysis defaultImpls defaultSummarize false "t1" emptyState "missing" =
      (emptyState, []) :=
  run_unknown_id_noop defaultImpls defaultSummarize false "t1" emptyState "missing" rfl

/-- C4: when an exception escapes the pipeline outside the per-module
handler (summary generation raising `msg`), the task's status is set to
error with the message attached and the summary field is left exactly
as it was (absent for a record fresh from creation). -/
theorem summary_failure_sets_error (impl : ModuleImpls)
    (summarize : List (String × JVal) → Except String Summary)
    (writeFails : Bool) (now : String) (st : SysState) (task_id : String)
    (t : TaskRecord) (msg : String)
    (h : st.tasks.lookup task_id = some t)
    (hs : summarize (moduleDispatchResult impl t).results = .error msg) :
    ∃ t', (run_analysis impl summarize writeFails now st task_id).1.tasks.lookup task_id
        = some t' ∧
      t'.status = .error ∧ t'.error = some msg ∧ t'.summary = t.summary := by
  rw [run_analysis_err impl summarize writeFails now st task_id t msg h hs]
  refine ⟨_, dictInsert_lookup_self _ _ _, rfl, rfl, ?_⟩
  have hsum := runModulesLoop_summary impl t.modules { t with status := Status.running }
  simpa [moduleDispatchResult] using hsum

/-- Witness for C4: the failing summarizer flips the sample task to
error, attaches the message, and leaves the summary absent. -/
theorem summary_failure_sets_error_witness :
    ∃ t', (run_analysis defaultImpls failSummarize false "t1" sampleState "tid").1.tasks.lookup "tid"
        = some t' ∧
      t'.status = .error ∧ t'.error = some "summary exploded" ∧
      t'.summary = sampleTask.summary :=
  summary_failure_sets_error defaultImpls failSummarize false "t1" sampleState "tid"
    sampleTask "summary exploded" rfl rfl

/-- C9: a task that ends in error is never written to disk: the failing
run leaves the disk exactly as it was, so once the in-memory entry is
gone (as after a process restart) a get for that identifier returns
absent rather than the errored record. -/
theorem errored_task_not_persisted (impl : ModuleImpls)
    (summarize : List (String × JVal) → Except String Summary)
    (writeFails : Bool) (now : String) (st : SysState) (task_id : String)
    (t : TaskRecord) (msg : String)
    (h : st.tasks.lookup task_id = some t)
    (hs : summarize (moduleDispatchResult impl t).results = .error msg)
    (hdisk : st.disk.lookup task_id = none) :
    (run_analysis impl summarize writeFails now st task_id).1.disk = st.disk ∧
    get_analysis_results
      { tasks := [],
        disk := (run_analysis impl summarize writeFails now st task_id).1.disk }
      task_id = none := by
  rw [run_analysis_err impl summarize writeFails now st task_id t msg h hs]
  exact ⟨rfl, by simp [get_analysis_results, load_results, List.lookup, hdisk]⟩

/-- Witness for C9: after the failing sample run the disk is still empty
and a memory-less lookup returns absent. -/
theorem errored_task_not_persisted_witness :
    (run_analysis defaultImpls failSummarize false "t1" sampleState "tid").1.disk
        = sampleState.disk ∧
    get_analysis_results
      { tasks := [],
        disk := (run_analysis defaultImpls failSummarize false "t1" sampleState "tid").1.disk }
      "tid" = none :=
  errored_task_not_persisted defaultImpls failSummarize false "t1" sampleState "tid"
    sampleTask "summary exploded" rfl rfl rfl

/-- C10: a failure inside the persistence step is swallowed: with a
failing disk write the task still ends completed with its summary and
completion time set, the in-memory store is exactly what a working disk
write would produce, and the disk is untouched — the task is never
flipped to error by a persistence failure. -/
theorem save_failure_swallowed (impl : ModuleImpls)
    (summarize : List (String × JVal) → Except String Summary)
    (now : String) (st : SysState) (task_id : String)
    (t : TaskRecord) (s : Summary)
    (h : st.tasks.lookup task_id = some t)
    (hs : summarize (moduleDispatchResult impl t).results = .ok s) :
    (∃ t', (run_analysis impl summarize true now st task_id).1.tasks.lookup task_id
        = some t' ∧
      t'.status = .completed ∧ t'.summary = some s ∧ t'.completed_at = some now) ∧
    (run_analysis impl summarize true now st task_id).1.tasks =
      (run_analysis impl summarize false now st task_id).1.tasks ∧
    (run_analysis impl summarize true now st task_id).1.disk = st.disk := by
  rw [run_analysis_ok impl summarize true now st task_id t s h hs,
    run_analysis_ok impl summarize false now st task_id t s h hs]
  exact ⟨⟨_, dictInsert_lookup_self _ _ _, rfl, rfl, rfl⟩, rfl, rfl⟩

/-- Witness for C10: the sample run with a failing disk write still
completes and writes nothing to disk. -/
theorem save_failure_swallowed_witness :
    (∃ t', (run_analysis defaultImpls defaultSummarize true "t1" sampleState "tid").1.tasks.lookup "tid"
        = some t' ∧
      t'.status = .completed ∧ t'.summary = some (generate_summary sampleResults) ∧
      t'.completed_at = some "t1") ∧
    (run_analysis defaultImpls defaultSummarize true "t1" sampleState "tid").1.tasks =
      (run_analysis defaultImpls defaultSummarize false "t1" sampleState "tid").1.tasks ∧
    (run_analysis defaultImpls defaultSummarize true "t1" sampleState "tid").1.disk =
      sampleState.disk :=
  save_failure_swallowed defaultImpls defaultSummarize "t1" sampleState "tid"
    sampleTask (generate_summary sampleResults) rfl rfl

/-- C2: for every task that reaches status completed, the key set of its
results mapping is exactly the set of requested module names that belong
to the recognized set {performance, seo, accessibility, technology,
carbon}: a requested-and-recognized name is always a key (with a payload
or an error marker), and an unrecognized requested name never is. -/
theorem completed_results_keys_spec (impl : ModuleImpls)
    (summarize : List (String × JVal) → Except String Summary)
    (writeFails : Bool) (now : String) (st : SysState) (task_id : String)
    (t : TaskRecord)
    (h : st.tasks.lookup task_id = some t) (hres : t.results = [])
    (t' : TaskRecord)
    (hlook : (run_analysis impl summarize writeFails now st task_id).1.tasks.lookup task_id
        = some t')
    (hdone : t'.status = .completed) :
    ∀ name, ((t'.results.lookup name).isSome ↔
      (name ∈ t.modules ∧ recognizedModule name = true)) := by
  cases hs : summarize (moduleDispatchResult impl t).results with
  | ok s =>
    rw [run_analysis_ok impl summarize writeFails now st task_id t s h hs,
      dictInsert_lookup_self] at hlook
    obtain rfl := Option.some.inj hlook
    intro name
    have hk := runModulesLoop_lookup_isSome impl t.modules
      { t with status := Status.running } name
    simpa [moduleDispatchResult, hres] using hk
  | error msg =>
    rw [run_analysis_err impl summarize writeFails now st task_id t msg h hs,
      dictInsert_lookup_self] at hlook
    obtain rfl := Option.some.inj hlook
    simp at hdone

/-- Witness for C2: running the mixed request (performance plus the
unrecognized bogus) completes with performance a key of the results
mapping and bogus absent. -/
theorem completed_results_keys_spec_witness :
    ∃ t', (run_analysis defaultImpls defaultSummarize false "t1" mixedState "tid").1.tasks.lookup "tid"
        = some t' ∧
      ((t'.results.lookup "performance").isSome ↔
        ("performance" ∈ mixedTask.modules ∧ recognizedModule "performance" = true)) ∧
      ((t'.results.lookup "bogus").isSome ↔
        ("bogus" ∈ mixedTask.modules ∧ recognizedModule "bogus" = true)) :=
  ⟨_, rfl,
    completed_results_keys_spec defaultImpls defaultSummarize false "t1" mixedState "tid"
      mixedTask rfl rfl _ rfl rfl "performance",
    completed_results_keys_spec defaultImpls defaultSummarize false "t1" mixedState "tid"
      mixedTask rfl rfl _ rfl rfl "bogus"⟩

/-- C3: when a requested module raises, the dispatcher stores
`{error: message}` under that module's name and continues: the task
still completes, and every other module's result entry is identical to
what it would be had the failing module succeeded (comparison with a
second implementation set that agrees everywhere except the failing
module). -/
theorem module_failure_isolation (impl impl' : ModuleImpls) (m msg : String)
    (writeFails : Bool) (now : String) (st : SysState) (task_id : String)
    (t : TaskRecord)
    (h : st.tasks.lookup task_id = some t)
    (hm : ∀ u : TaskRecord, dispatchModule impl u m = some (.error msg))
    (hoth : ∀ (u : TaskRecord) (n : String), n ≠ m →
      dispatchModule impl u n = dispatchModule impl' u n)
    (hmem : m ∈ t.modules) :
    ∃ t' t'',
      (run_analysis impl defaultSummarize writeFails now st task_id).1.tasks.lookup task_id
          = some t' ∧
      (run_analysis impl' defaultSummarize writeFails now st task_id).1.tasks.lookup task_id
          = some t'' ∧
      t'.status = .completed ∧
      t'.results.lookup m = some (errObj msg) ∧
      (∀ n, n ≠ m → t'.results.lookup n = t''.results.lookup n) := by
  rw [run_analysis_ok impl defaultSummarize writeFails now st task_id t
      (generate_summary (moduleDispatchResult impl t).results) h rfl,
    run_analysis_ok impl' defaultSummarize writeFails now st task_id t
      (generate_summary (moduleDispatchResult impl' t).results) h rfl]
  refine ⟨_, _, dictInsert_lookup_self _ _ _, dictInsert_lookup_self _ _ _, rfl, ?_, ?_⟩
  · have he := runModulesLoop_lookup_err impl m msg hm t.modules
      { t with status := Status.running } hmem
    simpa [moduleDispatchResult] using he
  · intro n hn
    have hiso := runModulesLoop_isolation impl impl' m hoth t.modules
      { t with status := Status.running } { t with status := Status.running }
      rfl rfl rfl (fun _ _ => rfl) n hn
    simpa [moduleDispatchResult] using hiso.symm

/-- Witness for C3: with a seo module that raises `boom`, the sample run
still completes, stores the error marker under seo, and its performance
entry agrees with the run whose seo module succeeds. -/
theorem module_failure_isolation_witness :
    ∃ t' t'',
      (run_analysis seoFailImpls defaultSummarize false "t1" sampleState "tid").1.tasks.lookup "tid"
          = some t' ∧
      (run_analysis defaultImpls defaultSummarize false "t1" sampleState "tid").1.tasks.lookup "tid"
          = some t'' ∧
      t'.status = .completed ∧
      t'.results.lookup "seo" = some (errObj "boom") ∧
      (∀ n, n ≠ "seo" → t'.results.lookup n = t''.results.lookup n) :=
  module_failure_isolation seoFailImpls defaultImpls "seo" "boom" false "t1"
    sampleState "tid" sampleTask rfl (fun _ => rfl)
    (by
      intro u n hn
      unfold dispatchModule
      split_ifs <;> first | rfl | exact absurd (by assumption) hn)
    (by simp [sampleTask])

/-- C8: across the create-then-run lifecycle the status only moves
forward along pending → running → (completed | error): the record is
pending at creation, and the full sequence of statuses the record takes
is one of the two forward paths, each strictly increasing in lifecycle
rank, so no state is ever revisited and a terminal state is final. -/
theorem status_transitions_monotone (impl : ModuleImpls)
    (summarize : List (String × JVal) → Except String Summary)
    (writeFails : Bool) (now now2 url device : String)
    (modules : List String) (depth : Nat) (st0 : SysState) (task_id : String) :
    ∃ created : TaskRecord,
      (start_analysis st0 task_id now url modules depth device).tasks.lookup task_id
          = some created ∧
      created.status = .pending ∧
      ((Status.pending ::
          (run_analysis impl summarize writeFails now2
            (start_analysis st0 task_id now url modules depth device) task_id).2
            = [Status.pending, Status.running, Status.completed] ∨
        Status.pending ::
          (run_analysis impl summarize writeFails now2
            (start_analysis st0 task_id now url modules depth device) task_id).2
            = [Status.pending, Status.running, Status.error]) ∧
       List.Chain' (fun a b => statusRank a < statusRank b)
         (Status.pending ::
           (run_analysis impl summarize writeFails now2
             (start_analysis st0 task_id now url modules depth device) task_id).2)) := by
  have hcreated : (start_analysis st0 task_id now url modules depth device).tasks.lookup task_id
      = some { status := .pending, url := url, modules := modules, depth := depth,
               device := device, timestamp := now, results := [], started_at := now } :=
    dictInsert_lookup_self _ _ _
  refine ⟨_, hcreated, rfl, ?_⟩
  cases hs : summarize (moduleDispatchResult impl
      { status := .pending, url := url, modules := modules, depth := depth,
        device := device, timestamp := now, results := [], started_at := now }).results with
  | ok s =>
    rw [run_analysis_ok impl summarize writeFails now2 _ task_id _ s hcreated hs]
    refine ⟨Or.inl rfl, ?_⟩
    show List.Chain' (fun a b => statusRank a < statusRank b)
      [Status.pending, Status.running, Status.completed]
    simp [List.chain'_cons, statusRank]
  | error msg =>
    rw [run_analysis_err impl summarize writeFails now2 _ task_id _ msg hcreated hs]
    refine ⟨Or.inr rfl, ?_⟩
    show List.Chain' (fun a b => statusRank a < statusRank b)
      [Status.pending, Status.running, Status.error]
    simp [List.chain'_cons, statusRank]
